import Mathlib

/-!
Shallow embedding of `scripts/upload-analytics/upload_to_rds.py`.

The script reads a CSV of analytics events, filters out rows whose
customer starts with "user-study", sorts the rest by the `time` field
(Python `sorted` with `key=itemgetter(time)`, a stable sort on the
string key), skips as many rows as the resume offset computed from
`SELECT MAX(id) FROM analytics`, inserts the remainder one by one, and
then calls `db.commit()` (where `db` is an undefined name).  The whole
body after connecting sits in a `try/except/finally`: any exception is
printed and swallowed, and the cursor/connection are closed.

Python values are modelled as follows: a CSV row (a `csv.DictReader`
dict) is a `Row` whose fields are `Option String` (a `none` field means
the key is missing, so subscripting raises `KeyError`); a Python
exception is the `Except.error` case of `Except String`; the database is
abstract, with the result of the `MAX(id)` query given as `Option Int`
(`none` = SQL NULL) and the success of each `cursor.execute` insert call
given by an oracle `insertOk : Nat → Bool` (call number ↦ does it
succeed).
-/

namespace UploadToRds

/-- A parsed CSV row, as produced by `csv.DictReader`: each expected
column is present (`some`) or missing (`none`).  The Python dict key
`namespace` is a Lean keyword, so the field is called `nspace`. -/
structure Row where
  time : Option String
  customer : Option String
  nspace : Option String
  event : Option String
  additional : Option String
deriving DecidableEq, Repr

/-- Python dict subscription `row[key]`: raises `KeyError` when the key
is missing. -/
def getItem (field : Option String) (key : String) : Except String String :=
  match field with
  | some v => .ok v
  | none => .error ("KeyError: " ++ key)

/-- Python `s.startswith(pre)`: the characters of `pre` are an initial
segment of the characters of `s`. -/
def startswith (s pre : String) : Bool :=
  pre.toList.isPrefixOf s.toList

/-- `SELECT MAX(id) FROM analytics`: the maximum of the id column, NULL
(`none`) when the table has no rows.  The table state is abstracted to
its list of ids. -/
def maxIdQuery (ids : List Int) : Option Int :=
  ids.max?

/-- Lines 17-20 of the script:
`result = cursor.fetchone()[0] or -1; return int(result) + 1`.
Python `or` takes the right operand when the left is falsy, and both
`None` and `0` are falsy, so a NULL max *and* a max of exactly 0 fall
back to `-1`. -/
def get_next_index (maxId : Option Int) : Int :=
  let result : Int :=
    match maxId with
    | none => -1
    | some v => if v = 0 then -1 else v
  result + 1

/-- Lines 22-30: the generator yields each row whose `customer` field
does not start with `"user-study"`; rows with the reserved customer
are skipped.  Looking up a missing `customer` key raises `KeyError`.
The generator is modelled fully consumed (the caller `sorted(...)`
drains it), so the result is the whole filtered list or the first
error. -/
def read_input : List Row → Except String (List Row)
  | [] => .ok []
  | r :: rest =>
    match getItem r.customer "customer" with
    | .error e => .error e
    | .ok c =>
      if startswith c "user-study" then
        read_input rest
      else
        match read_input rest with
        | .error e => .error e
        | .ok tail => .ok (r :: tail)

/-- The sort key of a row, `itemgetter(time)`, for rows whose `time`
field is present (`timeKey` reads `""` for a missing field; `sort_input`
raises `KeyError` before ever comparing such a row). -/
def timeKey (r : Row) : String :=
  r.time.getD ""

/-- The comparison `sorted` uses: keys compared as strings. -/
def timeLE (a b : Row) : Bool :=
  decide (timeKey a ≤ timeKey b)

/-- CPython `list.sort(key=f)` first computes `f` on every element in
list order (raising the first `KeyError` of a row missing `time`), then
sorts. -/
def computeKeys : List Row → Except String (List String)
  | [] => .ok []
  | r :: rest =>
    match getItem r.time "time" with
    | .error e => .error e
    | .ok t =>
      match computeKeys rest with
      | .error e => .error e
      | .ok ts => .ok (t :: ts)

/-- Lines 32-33: `sorted(read_function, key=itemgetter(time))` — a
stable sort of the rows by their `time` string.  `List.mergeSort` is
stable, like CPython sort. -/
def sort_input (rows : List Row) : Except String (List Row) :=
  match computeKeys rows with
  | .error e => .error e
  | .ok _ => .ok (rows.mergeSort timeLE)

/-- Lines 56-57: `for i in range(start_idx): next(enumerated_input)` —
calling `next` on an exhausted iterator raises `StopIteration`. -/
def skipN : Nat → List Row → Except String (List Row)
  | 0, xs => .ok xs
  | _ + 1, [] => .error "StopIteration"
  | n + 1, _ :: xs => skipN n xs

/-- Lines 62-69: the five subscripts `v[time], v[customer],
v[namespace], v[event], v[additional]` evaluated left to right
(each may raise `KeyError`). -/
def rowFields (v : Row) : Except String (String × String × String × String × String) :=
  match getItem v.time "time" with
  | .error e => .error e
  | .ok t =>
    match getItem v.customer "customer" with
    | .error e => .error e
    | .ok c =>
      match getItem v.nspace "namespace" with
      | .error e => .error e
      | .ok n =>
        match getItem v.event "event" with
        | .error e => .error e
        | .ok ev =>
          match getItem v.additional "additional" with
          | .error e => .error e
          | .ok ad => .ok (t, c, n, ev, ad)

/-- Lines 60-72: the upload loop.  For each remaining row, read its five
fields, then `cursor.execute(INSERT ...)`; whether insert call number
`j` succeeds is decided by the oracle `insertOk`.  Returns the rows
whose insert executed successfully, in order, and the loop outcome. -/
def uploadLoop (insertOk : Nat → Bool) : List Row → Nat → List Row × Except String Unit
  | [], _ => ([], .ok ())
  | v :: rest, j =>
    match rowFields v with
    | .error e => ([], .error e)
    | .ok _ =>
      if insertOk j then
        let r := uploadLoop insertOk rest (j + 1)
        (v :: r.1, r.2)
      else
        ([], .error "insert failed")

/-- Line 74: `db.commit()`.  No name `db` is ever defined in the script,
so reaching this line raises `NameError`; the commit never happens. -/
def commitStep : Except String Unit :=
  .error "NameError: name db is not defined"

/-- Lines 50-74, the body of the `try` block: compute the resume offset,
read + filter + sort the file, skip `start_idx` rows (Python `range` of
a negative number is empty, hence `Int.toNat`), upload the rest, then
attempt the commit.  Returns the successfully executed inserts and the
outcome of the body. -/
def tryBody (maxId : Option Int) (file : List Row) (insertOk : Nat → Bool) :
    List Row × Except String Unit :=
  let start_idx := get_next_index maxId
  match read_input file with
  | .error e => ([], .error e)
  | .ok filtered =>
    match sort_input filtered with
    | .error e => ([], .error e)
    | .ok xs =>
      match skipN start_idx.toNat xs with
      | .error e => ([], .error e)
      | .ok remaining =>
        let r := uploadLoop insertOk remaining 0
        match r.2 with
        | .error e => (r.1, .error e)
        | .ok () => (r.1, commitStep)

/-- Observable outcome of one run of `main()`. -/
structure MainOutcome where
  /-- Rows whose insert statement executed successfully, in order. -/
  inserted : List Row
  /-- Whether the commit at line 74 completed (it never can). -/
  committed : Bool
  /-- The exception caught and printed by `except Exception as e`. -/
  caught : Option String
  cursorClosed : Bool
  connClosed : Bool
  /-- An exception escaping `main` uncaught (crashes the process). -/
  uncaught : Option String
deriving DecidableEq, Repr

/-- Lines 39-81, `main()`.  `psycopg2.connect` (lines 41-46) runs
*before* the `try` block: if it raises, nothing is caught, no cursor or
connection exists to close, and the exception escapes.  Once connected,
the `try` body runs; an exception there is caught and printed, and the
`finally` closes the cursor and connection either way. -/
def main (connect : Except String Unit) (maxId : Option Int) (file : List Row)
    (insertOk : Nat → Bool) : MainOutcome :=
  match connect with
  | .error e =>
      { inserted := [], committed := false, caught := none,
        cursorClosed := false, connClosed := false, uncaught := some e }
  | .ok () =>
      let r := tryBody maxId file insertOk
      match r.2 with
      | .ok () =>
          { inserted := r.1, committed := true, caught := none,
            cursorClosed := true, connClosed := true, uncaught := none }
      | .error e =>
          { inserted := r.1, committed := false, caught := some e,
            cursorClosed := true, connClosed := true, uncaught := none }

/-- Modelled from the spec: the destination store is transactional and
rolls back uncommitted work when the connection closes without commit
("a mid-loop failure should leave the destination table unchanged if the
store supports transactional rollback on close without commit").  The
table after a run extends the initial table by the inserted rows only
when the run committed. -/
def finalTable (initial : List Row) (out : MainOutcome) : List Row :=
  if out.committed then initial ++ out.inserted else initial

/-- A row carrying all five expected columns. -/
def wfRow (r : Row) : Bool :=
  r.time.isSome && r.customer.isSome && r.nspace.isSome && r.event.isSome && r.additional.isSome

/-- Sample rows for concrete runs. -/
def rowA : Row :=
  ⟨some "2024-01-01T00:00:00", some "acme", some "prod", some "login", some "x"⟩

def rowB : Row :=
  ⟨some "2024-01-02T00:00:00", some "acme", some "prod", some "click", some "y"⟩

def rowStudy : Row :=
  ⟨some "2024-01-01T12:00:00", some "user-study-42", some "prod", some "login", some "z"⟩

/-- The customer key of a row whose `customer` field is present. -/
def custKey (r : Row) : String :=
  r.customer.getD ""

/-- The filter the reader applies, phrased on whole rows. -/
def notStudy (r : Row) : Bool :=
  !(startswith (custKey r) "user-study")

/-! ### Helper lemmas about the embedded operations -/

theorem timeLE_trans (a b c : Row) : timeLE a b → timeLE b c → timeLE a c := by
  simp only [timeLE, decide_eq_true_eq]
  exact le_trans

theorem timeLE_total (a b : Row) : timeLE a b || timeLE b a := by
  simp only [timeLE, Bool.or_eq_true, decide_eq_true_eq]
  exact le_total _ _

theorem timeLE_iff_toList (a b : Row) :
    timeLE a b = true ↔ (timeKey a).toList ≤ (timeKey b).toList := by
  simp only [timeLE, decide_eq_true_eq]
  exact String.le_iff_toList_le

theorem computeKeys_ok (rows : List Row) (h : ∀ r ∈ rows, (r.time).isSome) :
    computeKeys rows = .ok (rows.map timeKey) := by
  induction rows with
  | nil => rfl
  | cons r rest ih =>
    obtain ⟨t, ht⟩ := Option.isSome_iff_exists.mp (h r (by simp))
    have htail := ih (fun x hx => h x (by simp [hx]))
    simp [computeKeys, getItem, ht, htail, timeKey]

theorem sort_input_ok (rows : List Row) (h : ∀ r ∈ rows, (r.time).isSome) :
    sort_input rows = .ok (rows.mergeSort timeLE) := by
  simp [sort_input, computeKeys_ok rows h]

theorem sort_input_of_sorted (rows : List Row) (h : ∀ r ∈ rows, (r.time).isSome)
    (hs : rows.Pairwise (fun a b => timeLE a b)) : sort_input rows = .ok rows := by
  rw [sort_input_ok rows h, List.mergeSort_of_sorted hs]

theorem read_input_ok (rows : List Row) (h : ∀ r ∈ rows, (r.customer).isSome) :
    read_input rows = .ok (rows.filter notStudy) := by
  induction rows with
  | nil => rfl
  | cons r rest ih =>
    obtain ⟨c, hc⟩ := Option.isSome_iff_exists.mp (h r (by simp))
    have htail := ih (fun x hx => h x (by simp [hx]))
    by_cases hs : startswith c "user-study" = true
    · simp [read_input, getItem, hc, hs, htail, List.filter_cons, notStudy, custKey]
    · simp [read_input, getItem, hc, hs, htail, List.filter_cons, notStudy, custKey]

/-- Stability of the sort, phrased through filtering on the key: the
rows carrying any fixed time key appear in the output exactly as they
appeared in the input. -/
theorem mergeSort_filter_timeKey (rows : List Row) (t : String) :
    (rows.mergeSort timeLE).filter (fun r => timeKey r == t)
      = rows.filter (fun r => timeKey r == t) := by
  have hpair : (rows.filter (fun r => timeKey r == t)).Pairwise (fun a b => timeLE a b) := by
    apply List.pairwise_of_forall_mem_list
    intro a ha b hb
    have ha2 := (List.mem_filter.mp ha).2
    have hb2 := (List.mem_filter.mp hb).2
    simp only [beq_iff_eq] at ha2 hb2
    simp [timeLE, ha2, hb2]
  have hsub : List.Sublist (rows.filter (fun r => timeKey r == t)) (rows.mergeSort timeLE) :=
    List.sublist_mergeSort timeLE_trans timeLE_total hpair (List.filter_sublist rows)
  have hself : (rows.filter (fun r => timeKey r == t)).filter (fun r => timeKey r == t)
      = rows.filter (fun r => timeKey r == t) := by
    apply List.filter_eq_self.mpr
    intro a ha
    exact (List.mem_filter.mp ha).2
  have hsub2 := hsub.filter (fun r => timeKey r == t)
  rw [hself] at hsub2
  have hperm : List.Perm ((rows.mergeSort timeLE).filter (fun r => timeKey r == t))
      (rows.filter (fun r => timeKey r == t)) :=
    (List.mergeSort_perm rows timeLE).filter _
  exact (hsub2.eq_of_length hperm.length_eq.symm).symm

theorem skipN_of_le : ∀ (n : Nat) (xs : List Row), n ≤ xs.length → skipN n xs = .ok (xs.drop n)
  | 0, xs, _ => rfl
  | n + 1, [], h => by simp at h
  | n + 1, x :: xs, h => skipN_of_le n xs (Nat.le_of_succ_le_succ h)

theorem skipN_of_gt : ∀ (n : Nat) (xs : List Row), xs.length < n →
    skipN n xs = .error "StopIteration"
  | 0, xs, h => by simp at h
  | n + 1, [], _ => rfl
  | n + 1, x :: xs, h => skipN_of_gt n xs (Nat.lt_of_succ_lt_succ h)

theorem rowFields_ok (v : Row) (h : wfRow v) :
    rowFields v = .ok (timeKey v, custKey v, v.nspace.getD "", v.event.getD "", v.additional.getD "") := by
  simp only [wfRow, Bool.and_eq_true] at h
  obtain ⟨⟨⟨⟨h1, h2⟩, h3⟩, h4⟩, h5⟩ := h
  obtain ⟨t, ht⟩ := Option.isSome_iff_exists.mp h1
  obtain ⟨c, hc⟩ := Option.isSome_iff_exists.mp h2
  obtain ⟨n, hn⟩ := Option.isSome_iff_exists.mp h3
  obtain ⟨ev, hev⟩ := Option.isSome_iff_exists.mp h4
  obtain ⟨ad, had⟩ := Option.isSome_iff_exists.mp h5
  simp [rowFields, getItem, ht, hc, hn, hev, had, timeKey, custKey]

theorem uploadLoop_take (insertOk : Nat → Bool) :
    ∀ (xs : List Row) (j : Nat), ∃ k, k ≤ xs.length ∧
      (uploadLoop insertOk xs j).1 = xs.take k ∧
      ((uploadLoop insertOk xs j).2 = .ok () → (uploadLoop insertOk xs j).1 = xs) ∧
      (∀ e, (uploadLoop insertOk xs j).2 = .error e → k < xs.length)
  | [], j => by
    refine ⟨0, by simp, by simp [uploadLoop], fun h2 => rfl, ?_⟩
    intro e he
    simp [uploadLoop] at he
  | v :: rest, j => by
    match hf : rowFields v with
    | .error e =>
      refine ⟨0, by simp, by simp [uploadLoop, hf], ?_, ?_⟩
      · intro h
        simp [uploadLoop, hf] at h
      · intro e2 _
        simp
    | .ok fields =>
      by_cases hj : insertOk j = true
      · obtain ⟨k, hk, h1, h2, h3⟩ := uploadLoop_take insertOk rest (j + 1)
        refine ⟨k + 1, by simpa using hk, ?_, ?_, ?_⟩
        · simp [uploadLoop, hf, hj, h1]
        · intro h
          simp only [uploadLoop, hf, hj, if_true] at h ⊢
          simp [h2 h]
        · intro e he
          simp only [uploadLoop, hf, hj, if_true] at he
          have := h3 e he
          simp
          omega
      · refine ⟨0, by simp, by simp [uploadLoop, hf, hj], ?_, ?_⟩
        · intro h
          simp [uploadLoop, hf, hj] at h
        · intro e2 _
          simp

theorem uploadLoop_all_ok :
    ∀ (xs : List Row), (∀ r ∈ xs, wfRow r) → ∀ (j : Nat),
      uploadLoop (fun _ => true) xs j = (xs, .ok ())
  | [], _, _ => rfl
  | v :: rest, h, j => by
    have hv := rowFields_ok v (h v (by simp))
    have htail := uploadLoop_all_ok rest (fun x hx => h x (by simp [hx])) (j + 1)
    simp [uploadLoop, hv, htail]

theorem tryBody_skip_err (maxId : Option Int) (file : List Row) (insertOk : Nat → Bool)
    (filtered xs : List Row) (e : String)
    (hr : read_input file = .ok filtered) (hs : sort_input filtered = .ok xs)
    (hskip : skipN (get_next_index maxId).toNat xs = .error e) :
    tryBody maxId file insertOk = ([], .error e) := by
  simp [tryBody, hr, hs, hskip]

theorem tryBody_loop_err (maxId : Option Int) (file : List Row) (insertOk : Nat → Bool)
    (filtered xs remaining ins : List Row) (e : String)
    (hr : read_input file = .ok filtered) (hs : sort_input filtered = .ok xs)
    (hskip : skipN (get_next_index maxId).toNat xs = .ok remaining)
    (hloop : uploadLoop insertOk remaining 0 = (ins, .error e)) :
    tryBody maxId file insertOk = (ins, .error e) := by
  simp [tryBody, hr, hs, hskip, hloop]

theorem tryBody_loop_ok (maxId : Option Int) (file : List Row) (insertOk : Nat → Bool)
    (filtered xs remaining ins : List Row)
    (hr : read_input file = .ok filtered) (hs : sort_input filtered = .ok xs)
    (hskip : skipN (get_next_index maxId).toNat xs = .ok remaining)
    (hloop : uploadLoop insertOk remaining 0 = (ins, .ok ())) :
    tryBody maxId file insertOk = (ins, commitStep) := by
  simp [tryBody, hr, hs, hskip, hloop]

theorem tryBody_fst (maxId : Option Int) (file : List Row) (insertOk : Nat → Bool)
    (filtered xs remaining : List Row)
    (hr : read_input file = .ok filtered) (hs : sort_input filtered = .ok xs)
    (hskip : skipN (get_next_index maxId).toNat xs = .ok remaining) :
    (tryBody maxId file insertOk).1 = (uploadLoop insertOk remaining 0).1 := by
  rcases hres : uploadLoop insertOk remaining 0 with ⟨ins, res⟩
  cases res with
  | ok u =>
    cases u
    rw [tryBody_loop_ok maxId file insertOk filtered xs remaining ins hr hs hskip hres]
  | error e =>
    rw [tryBody_loop_err maxId file insertOk filtered xs remaining ins e hr hs hskip hres]

theorem main_connect_err (e : String) (maxId : Option Int) (file : List Row)
    (insertOk : Nat → Bool) :
    main (.error e) maxId file insertOk =
      { inserted := [], committed := false, caught := none,
        cursorClosed := false, connClosed := false, uncaught := some e } := rfl

theorem main_body_err (maxId : Option Int) (file : List Row) (insertOk : Nat → Bool)
    (ins : List Row) (e : String)
    (h : tryBody maxId file insertOk = (ins, .error e)) :
    main (.ok ()) maxId file insertOk =
      { inserted := ins, committed := false, caught := some e,
        cursorClosed := true, connClosed := true, uncaught := none } := by
  simp [main, h]

theorem main_inserted_fst (maxId : Option Int) (file : List Row) (insertOk : Nat → Bool) :
    (main (.ok ()) maxId file insertOk).inserted = (tryBody maxId file insertOk).1 := by
  rcases h : tryBody maxId file insertOk with ⟨ins, res⟩
  cases res with
  | ok u => cases u; simp [main, h]
  | error e => simp [main, h]

/-- Whatever the resume offset and the insert outcomes, the rows a run
inserts are an initial segment of the sorted sequence with its first
`start_idx` elements dropped. -/
theorem main_inserted_take (maxId : Option Int) (file : List Row) (insertOk : Nat → Bool)
    (filtered xs : List Row)
    (hr : read_input file = .ok filtered) (hs : sort_input filtered = .ok xs) :
    ∃ k, (main (.ok ()) maxId file insertOk).inserted
        = (xs.drop (get_next_index maxId).toNat).take k := by
  rw [main_inserted_fst]
  rcases le_or_lt (get_next_index maxId).toNat xs.length with h | h
  · rw [tryBody_fst maxId file insertOk filtered xs _ hr hs (skipN_of_le _ xs h)]
    obtain ⟨k, _, h1, _, _⟩ :=
      uploadLoop_take insertOk (xs.drop (get_next_index maxId).toNat) 0
    exact ⟨k, h1⟩
  · rw [tryBody_skip_err maxId file insertOk filtered xs _ hr hs (skipN_of_gt _ xs h)]
    exact ⟨0, by simp⟩

/-- A run whose resume offset is zero, over well-formed rows with every
insert succeeding, inserts exactly the whole sorted sequence. -/
theorem main_inserted_all (maxId : Option Int) (file : List Row)
    (filtered xs : List Row) (h0 : (get_next_index maxId).toNat = 0)
    (hr : read_input file = .ok filtered) (hs : sort_input filtered = .ok xs)
    (hwf : ∀ r ∈ xs, wfRow r) :
    (main (.ok ()) maxId file (fun _ => true)).inserted = xs := by
  rw [main_inserted_fst]
  have hskip : skipN (get_next_index maxId).toNat xs = .ok xs := by
    rw [h0]
    rfl
  rw [tryBody_fst maxId file (fun _ => true) filtered xs xs hr hs hskip]
  rw [uploadLoop_all_ok xs hwf 0]

/-! ### Claim theorems -/

/-- C2, counterexample: in a table state whose maximum identifier is
exactly 0, `get_next_index` returns 0 and not (max) + 1 = 1, so the
claim "for every state the result is (max) + 1" fails. -/
theorem c2_counterexample :
    maxIdQuery [0] = some 0 ∧ get_next_index (maxIdQuery [0]) = 0 ∧
      get_next_index (maxIdQuery [0]) ≠ 0 + 1 := by
  refine ⟨rfl, rfl, by decide⟩

/-- C2 (amended): for every state of the analytics table,
`get_next_index` returns 0 when the table is empty (`MAX(id)` is NULL),
returns (maximum existing identifier) + 1 whenever that maximum is
nonzero, and returns 0 (not max + 1) in the edge case where the maximum
identifier is exactly 0. -/
theorem c2_next_index (ids : List Int) :
    (maxIdQuery ids = none → get_next_index (maxIdQuery ids) = 0) ∧
    (∀ m : Int, maxIdQuery ids = some m → m ≠ 0 → get_next_index (maxIdQuery ids) = m + 1) ∧
    (maxIdQuery ids = some 0 → get_next_index (maxIdQuery ids) = 0) := by
  refine ⟨?_, ?_, ?_⟩
  · intro h
    rw [h]
    decide
  · intro m hm hm0
    rw [hm]
    simp [get_next_index, hm0]
  · intro h
    rw [h]
    decide

/-- C2 witness: on the table with ids {5, 2} the resume offset is 5 + 1,
and on the empty table it is 0. -/
theorem c2_next_index_witness :
    (maxIdQuery [5, 2] = some 5 ∧ (5 : Int) ≠ 0 ∧
      get_next_index (maxIdQuery [5, 2]) = 5 + 1) ∧
    (maxIdQuery ([] : List Int) = none ∧ get_next_index (maxIdQuery ([] : List Int)) = 0) :=
  ⟨⟨by decide, by decide, (c2_next_index [5, 2]).2.1 5 (by decide) (by decide)⟩,
   ⟨rfl, (c2_next_index []).1 rfl⟩⟩

/-- C10: when the maximum existing identifier equals exactly 0,
`get_next_index` returns 0 — the same resume offset as for the empty
table — and the value max + 1 = 1 is not produced, because the Python
`or -1` fallback treats the falsy value 0 as absent. -/
theorem c10_max_zero (ids : List Int) (h : maxIdQuery ids = some 0) :
    get_next_index (maxIdQuery ids) = 0 ∧
    get_next_index (maxIdQuery ids) = get_next_index (maxIdQuery ([] : List Int)) ∧
    get_next_index (maxIdQuery ids) ≠ 1 := by
  rw [h]
  refine ⟨rfl, rfl, by decide⟩

/-- C10 witness: the table holding the single id 0. -/
theorem c10_max_zero_witness :
    maxIdQuery [0] = some 0 ∧
    (get_next_index (maxIdQuery [0]) = 0 ∧
     get_next_index (maxIdQuery [0]) = get_next_index (maxIdQuery ([] : List Int)) ∧
     get_next_index (maxIdQuery [0]) ≠ 1) :=
  ⟨rfl, c10_max_zero [0] rfl⟩

/-- C4: for every input file whose rows carry a `customer` field,
`read_input` yields exactly the rows whose customer does not start with
the reserved "user-study" marker, in file order: the output is the
order-preserving filter of the input, every reserved row is dropped, and
no other row is dropped. -/
theorem c4_read_input (file : List Row) (h : ∀ r ∈ file, (r.customer).isSome) :
    read_input file = .ok (file.filter notStudy) ∧
    (∀ r ∈ file, startswith (custKey r) "user-study" = true → r ∉ file.filter notStudy) ∧
    (∀ r ∈ file, startswith (custKey r) "user-study" = false → r ∈ file.filter notStudy) := by
  refine ⟨read_input_ok file h, ?_, ?_⟩
  · intro r hr hsw hmem
    have h2 := (List.mem_filter.mp hmem).2
    simp [notStudy, hsw] at h2
  · intro r hr hsw
    exact List.mem_filter.mpr ⟨hr, by simp [notStudy, hsw]⟩

/-- C4 witness: a file holding a "user-study-42" row between two acme
rows; the reserved row is absent from the output and the others are
kept in order. -/
theorem c4_read_input_witness :
    (∀ r ∈ [rowA, rowStudy, rowB], (r.customer).isSome) ∧
    read_input [rowA, rowStudy, rowB] = .ok ([rowA, rowStudy, rowB].filter notStudy) ∧
    [rowA, rowStudy, rowB].filter notStudy = [rowA, rowB] ∧
    rowStudy ∉ [rowA, rowB] := by
  refine ⟨by decide, (c4_read_input [rowA, rowStudy, rowB] (by decide)).1, by decide, by decide⟩

/-- The two sample acme rows are already in key order. -/
theorem rowA_rowB_sorted : List.Pairwise (fun a b => timeLE a b) [rowA, rowB] := by
  refine List.pairwise_cons.mpr ⟨?_, by simp⟩
  intro b hb
  simp only [List.mem_singleton] at hb
  subst hb
  exact (timeLE_iff_toList rowA rowB).mpr (by decide)

/-- C3: on any input whose rows carry a `time` field, `sort_input`
returns a permutation of the same elements, ordered by the `time` field
compared as strings, and stable: for each time value the rows carrying
it appear exactly as they appeared in the input, so ties keep the
original input order. -/
theorem c3_sort_input (rows : List Row) (h : ∀ r ∈ rows, (r.time).isSome) :
    ∃ out, sort_input rows = .ok out ∧
      List.Perm out rows ∧
      out.Pairwise (fun a b => timeKey a ≤ timeKey b) ∧
      ∀ t : String, out.filter (fun r => timeKey r == t)
        = rows.filter (fun r => timeKey r == t) := by
  refine ⟨rows.mergeSort timeLE, sort_input_ok rows h, List.mergeSort_perm rows timeLE,
    ?_, fun t => mergeSort_filter_timeKey rows t⟩
  have hp := List.sorted_mergeSort timeLE_trans timeLE_total rows
  exact hp.imp (fun hab => by simpa [timeLE] using hab)

/-- C3 witness: the spec scenario, rows with times 2024-01-02 and
2024-01-01 in that input order. -/
theorem c3_sort_input_witness :
    (∀ r ∈ [rowB, rowA], (r.time).isSome) ∧
    (∃ out, sort_input [rowB, rowA] = .ok out ∧
      List.Perm out [rowB, rowA] ∧
      out.Pairwise (fun a b => timeKey a ≤ timeKey b) ∧
      ∀ t : String, out.filter (fun r => timeKey r == t)
        = [rowB, rowA].filter (fun r => timeKey r == t)) :=
  ⟨by decide, c3_sort_input [rowB, rowA] (by decide)⟩

/-- C5: whenever the resume offset exceeds the length of the filtered,
sorted sequence, the skip step raises `StopIteration`; the error
surfaces (it is the exception the top level catches and prints, not a
silent no-op) and no record at all is uploaded in that run. -/
theorem c5_skip_past_end (maxId : Option Int) (file filtered xs : List Row)
    (insertOk : Nat → Bool)
    (hr : read_input file = .ok filtered) (hs : sort_input filtered = .ok xs)
    (hn : xs.length < (get_next_index maxId).toNat) :
    main (.ok ()) maxId file insertOk =
      { inserted := [], committed := false, caught := some "StopIteration",
        cursorClosed := true, connClosed := true, uncaught := none } :=
  main_body_err maxId file insertOk [] "StopIteration"
    (tryBody_skip_err maxId file insertOk filtered xs "StopIteration" hr hs
      (skipN_of_gt _ xs hn))

/-- C5 witness: a one-row file against a table whose max id is 5, so the
run tries to skip 6 rows. -/
theorem c5_skip_past_end_witness :
    read_input [rowA] = .ok [rowA] ∧
    sort_input [rowA] = .ok [rowA] ∧
    [rowA].length < (get_next_index (some 5)).toNat ∧
    main (.ok ()) (some 5) [rowA] (fun _ => true) =
      { inserted := [], committed := false, caught := some "StopIteration",
        cursorClosed := true, connClosed := true, uncaught := none } := by
  have hr : read_input [rowA] = .ok [rowA] := rfl
  have hs : sort_input [rowA] = .ok [rowA] :=
    sort_input_of_sorted [rowA] (by decide) (by simp)
  exact ⟨hr, hs, by decide,
    c5_skip_past_end (some 5) [rowA] [rowA] [rowA] (fun _ => true) hr hs (by decide)⟩

/-- C6: when the resume offset is 0 (as on a first run against an empty
table) and every insert succeeds, the run inserts every record of the
filtered, sorted sequence, in sorted order, exactly once: the inserted
list is the sorted sequence itself. -/
theorem c6_offset_zero_uploads_all (maxId : Option Int) (file filtered xs : List Row)
    (h0 : get_next_index maxId = 0)
    (hr : read_input file = .ok filtered) (hs : sort_input filtered = .ok xs)
    (hwf : ∀ r ∈ xs, wfRow r) :
    (main (.ok ()) maxId file (fun _ => true)).inserted = xs :=
  main_inserted_all maxId file filtered xs (by rw [h0]; rfl) hr hs hwf

/-- C6 witness: an empty table (`MAX(id)` NULL) and the two acme rows. -/
theorem c6_offset_zero_witness :
    get_next_index none = 0 ∧
    read_input [rowA, rowB] = .ok [rowA, rowB] ∧
    sort_input [rowA, rowB] = .ok [rowA, rowB] ∧
    (∀ r ∈ [rowA, rowB], wfRow r) ∧
    (main (.ok ()) none [rowA, rowB] (fun _ => true)).inserted = [rowA, rowB] := by
  have hr : read_input [rowA, rowB] = .ok [rowA, rowB] := rfl
  have hs : sort_input [rowA, rowB] = .ok [rowA, rowB] :=
    sort_input_of_sorted [rowA, rowB] (by decide) rowA_rowB_sorted
  exact ⟨by decide, hr, hs, by decide,
    c6_offset_zero_uploads_all none [rowA, rowB] [rowA, rowB] [rowA, rowB] (by decide)
      hr hs (by decide)⟩

/-- C1: idempotence under restart.  Two runs over the same filtered,
sorted sequence: if the resume offset of the second run equals the
offset of the first run plus the number of records the first run
uploaded (the max-identifier query reflecting the previously committed
rows), then the inserts of the two runs together form a sublist of the
sorted sequence — each record occurrence is uploaded at most once across
the two runs, whatever the insert outcomes of either run. -/
theorem c1_idempotent_restart (m1 m2 : Option Int) (file filtered xs : List Row)
    (ok1 ok2 : Nat → Bool)
    (hr : read_input file = .ok filtered) (hs : sort_input filtered = .ok xs)
    (h2 : (get_next_index m2).toNat = (get_next_index m1).toNat
      + ((main (.ok ()) m1 file ok1).inserted).length) :
    List.Sublist ((main (.ok ()) m1 file ok1).inserted
      ++ (main (.ok ()) m2 file ok2).inserted) xs ∧
    ∀ r : Row, List.count r ((main (.ok ()) m1 file ok1).inserted
      ++ (main (.ok ()) m2 file ok2).inserted) ≤ List.count r xs := by
  obtain ⟨k1, hk1⟩ := main_inserted_take m1 file ok1 filtered xs hr hs
  obtain ⟨k2, hk2⟩ := main_inserted_take m2 file ok2 filtered xs hr hs
  rw [hk1] at h2
  rw [hk1, hk2]
  have hD2 : xs.drop (get_next_index m2).toNat
      = (xs.drop (get_next_index m1).toNat).drop k1 := by
    rw [h2, List.length_take, ← List.drop_drop]
    rcases le_total k1 (xs.drop (get_next_index m1).toNat).length with hle | hle
    · rw [Nat.min_eq_left hle]
    · rw [Nat.min_eq_right hle, List.drop_length]
      exact (List.drop_eq_nil_of_le hle).symm
  rw [hD2]
  have hsub : List.Sublist
      ((xs.drop (get_next_index m1).toNat).take k1
        ++ ((xs.drop (get_next_index m1).toNat).drop k1).take k2)
      (xs.drop (get_next_index m1).toNat) := by
    have h3 := List.Sublist.append_left
      (List.take_sublist k2 ((xs.drop (get_next_index m1).toNat).drop k1))
      ((xs.drop (get_next_index m1).toNat).take k1)
    rw [List.take_append_drop] at h3
    exact h3
  exact ⟨hsub.trans (List.drop_sublist _ _),
    fun r => List.Sublist.count_le (hsub.trans (List.drop_sublist _ _)) r⟩

/-- C1 witness: first run from the empty table uploads both acme rows;
the second run resumes from a table whose max id is 1, skips both, and
the combined uploads are (trivially) a sublist of the sequence. -/
theorem c1_idempotent_witness :
    read_input [rowA, rowB] = .ok [rowA, rowB] ∧
    sort_input [rowA, rowB] = .ok [rowA, rowB] ∧
    (get_next_index (some 1)).toNat = (get_next_index none).toNat
      + ((main (.ok ()) none [rowA, rowB] (fun _ => true)).inserted).length ∧
    List.Sublist ((main (.ok ()) none [rowA, rowB] (fun _ => true)).inserted
      ++ (main (.ok ()) (some 1) [rowA, rowB] (fun _ => true)).inserted)
      [rowA, rowB] := by
  have hr : read_input [rowA, rowB] = .ok [rowA, rowB] := rfl
  have hs : sort_input [rowA, rowB] = .ok [rowA, rowB] :=
    sort_input_of_sorted [rowA, rowB] (by decide) rowA_rowB_sorted
  have hins : (main (.ok ()) none [rowA, rowB] (fun _ => true)).inserted = [rowA, rowB] :=
    main_inserted_all none [rowA, rowB] [rowA, rowB] [rowA, rowB] (by decide) hr hs (by decide)
  have h2 : (get_next_index (some 1)).toNat = (get_next_index none).toNat
      + ((main (.ok ()) none [rowA, rowB] (fun _ => true)).inserted).length := by
    rw [hins]
    decide
  exact ⟨hr, hs, h2,
    (c1_idempotent_restart none (some 1) [rowA, rowB] [rowA, rowB] [rowA, rowB]
      (fun _ => true) (fun _ => true) hr hs h2).1⟩

/-- C7, counterexample: a connection/auth failure is raised by
`psycopg2.connect`, which runs before the `try` block, so it is not
caught at the top level, nothing is printed by the handler, no cursor or
connection is closed, and the exception escapes — the run does not exit
cleanly, refuting the claim that all four exception kinds are caught,
printed and swallowed with resources closed. -/
theorem c7_counterexample :
    (main (.error "FATAL: password authentication failed") none [] (fun _ => true)).uncaught
        = some "FATAL: password authentication failed" ∧
    (main (.error "FATAL: password authentication failed") none [] (fun _ => true)).caught
        = none ∧
    (main (.error "FATAL: password authentication failed") none [] (fun _ => true)).cursorClosed
        = false ∧
    (main (.error "FATAL: password authentication failed") none [] (fun _ => true)).connClosed
        = false :=
  ⟨rfl, rfl, rfl, rfl⟩

/-- C7 (amended): every exception raised inside the `try` block —
malformed input row (`KeyError`), skip-past-end (`StopIteration`),
insert failure, and the commit `NameError` — is caught at the top level,
printed, and swallowed, and the run closes the cursor and the connection
and exits cleanly; but a connection/auth failure arises before the `try`
block, propagates uncaught, and the process neither prints it via the
handler nor closes resources nor exits cleanly. -/
theorem c7_exception_policy (maxId : Option Int) (file : List Row) (insertOk : Nat → Bool) :
    (∀ e : String, main (.error e) maxId file insertOk =
      { inserted := [], committed := false, caught := none,
        cursorClosed := false, connClosed := false, uncaught := some e }) ∧
    ((main (.ok ()) maxId file insertOk).uncaught = none ∧
     (main (.ok ()) maxId file insertOk).cursorClosed = true ∧
     (main (.ok ()) maxId file insertOk).connClosed = true ∧
     (main (.ok ()) maxId file insertOk).caught =
       (match (tryBody maxId file insertOk).2 with
        | .ok _ => none
        | .error e => some e)) := by
  refine ⟨fun e => rfl, ?_⟩
  rcases h : tryBody maxId file insertOk with ⟨ins, res⟩
  cases res with
  | ok u =>
    cases u
    simp [main, h]
  | error e =>
    simp [main, h]

/-- C8: if an exception occurs during the skip-and-upload loop, the loop
aborts: the inserted rows are a proper initial segment of the remaining
rows (nothing after the failure point is executed), the commit step is
never reached, and — under the transactional rollback-on-close
assumption modelled by `finalTable` — the destination table is left
unchanged by the run. -/
theorem c8_midloop_failure (maxId : Option Int) (file filtered xs remaining ins : List Row)
    (insertOk : Nat → Bool) (e : String)
    (hr : read_input file = .ok filtered) (hs : sort_input filtered = .ok xs)
    (hskip : skipN (get_next_index maxId).toNat xs = .ok remaining)
    (hloop : uploadLoop insertOk remaining 0 = (ins, .error e)) :
    main (.ok ()) maxId file insertOk =
      { inserted := ins, committed := false, caught := some e,
        cursorClosed := true, connClosed := true, uncaught := none } ∧
    (∃ k, k < remaining.length ∧ ins = remaining.take k) ∧
    ∀ initial : List Row,
      finalTable initial (main (.ok ()) maxId file insertOk) = initial := by
  have hmain := main_body_err maxId file insertOk ins e
    (tryBody_loop_err maxId file insertOk filtered xs remaining ins e hr hs hskip hloop)
  refine ⟨hmain, ?_, ?_⟩
  · obtain ⟨k, hk, h1, hok, herr⟩ := uploadLoop_take insertOk remaining 0
    refine ⟨k, herr e (by rw [hloop]), ?_⟩
    rw [hloop] at h1
    exact h1
  · intro initial
    rw [hmain]
    rfl

/-- C8 witness: a one-row file against an empty table where the single
insert fails. -/
theorem c8_midloop_failure_witness :
    read_input [rowA] = .ok [rowA] ∧
    sort_input [rowA] = .ok [rowA] ∧
    skipN (get_next_index none).toNat [rowA] = .ok [rowA] ∧
    uploadLoop (fun _ => false) [rowA] 0 = ([], .error "insert failed") ∧
    (main (.ok ()) none [rowA] (fun _ => false) =
      { inserted := [], committed := false, caught := some "insert failed",
        cursorClosed := true, connClosed := true, uncaught := none } ∧
     (∃ k, k < [rowA].length ∧ ([] : List Row) = [rowA].take k) ∧
     ∀ initial : List Row,
       finalTable initial (main (.ok ()) none [rowA] (fun _ => false)) = initial) := by
  have hr : read_input [rowA] = .ok [rowA] := rfl
  have hs : sort_input [rowA] = .ok [rowA] :=
    sort_input_of_sorted [rowA] (by decide) (by simp)
  have hskip : skipN (get_next_index none).toNat [rowA] = .ok [rowA] := rfl
  have hloop : uploadLoop (fun _ => false) [rowA] 0 = ([], .error "insert failed") := rfl
  exact ⟨hr, hs, hskip, hloop,
    c8_midloop_failure none [rowA] [rowA] [rowA] [rowA] [] (fun _ => false)
      "insert failed" hr hs hskip hloop⟩

/-- C9, code bug: on the success path — the upload loop completes over
all remaining records with no exception — the script reaches line 74 and
calls `db.commit()`, but the name `db` is undefined, so a `NameError` is
raised instead of a commit: the run never commits; the exception is then
caught and printed and the resources are closed.  Evaluated at the
concrete failing input of an empty table and an empty file, where the
loop trivially completes without error. -/
theorem c9_commit_is_nameerror :
    main (.ok ()) none [] (fun _ => true) =
      { inserted := [], committed := false,
        caught := some "NameError: name db is not defined",
        cursorClosed := true, connClosed := true, uncaught := none } ∧
    commitStep = .error "NameError: name db is not defined" := by
  constructor
  · have hr : read_input [] = .ok [] := rfl
    have hs : sort_input [] = .ok [] := sort_input_of_sorted [] (by simp) (by simp)
    have hskip : skipN (get_next_index none).toNat [] = .ok [] := rfl
    have hloop : uploadLoop (fun _ => true) [] 0 = ([], .ok ()) := rfl
    have hbody := tryBody_loop_ok none [] (fun _ => true) [] [] [] [] hr hs hskip hloop
    exact main_body_err none [] (fun _ => true) [] "NameError: name db is not defined" hbody
  · rfl

end UploadToRds
